import Mathlib

/-
Verification development for the AI Priority Suggestion Engine of the
AIProductivityApp repository.

The definitions below are a shallow embedding of the Python source:
  - app/services/priority_suggestion_service.py (PrioritySuggestionService)
  - app/services/embedding_service.py (EmbeddingService.compute_similarity)
  - app/api/endpoints/ai_priority.py (generate_embeddings backfill selection)

Modelling conventions:
  - The database (the "Task Store" collaborator of the spec) is a list of
    Task records; a SQLAlchemy `select ... where ... order_by ... limit`
    is embedded as filter / stable sort / take over that list.
  - Python datetimes are integer POSIX timestamps (seconds); the Python
    `timedelta.days` attribute is floor division by 86400 (floor towards
    negative infinity, matching CPython).
  - Python floats appearing in the scoring pipeline are embedded in an
    arbitrary linear ordered field K (instantiated at ℚ for concrete
    evaluation, at ℝ for the cosine-similarity analysis); the scoring
    code only uses field operations and comparisons on decimal literals.
  - The cosine similarity function used by the search pipeline is passed
    as an explicit parameter (the Python service resolves it through the
    injected EmbeddingService singleton); the ℝ-valued cosine itself is
    embedded separately, exactly as written in compute_similarity.
  - `round(x, 2)` is embedded as round-half-to-even at two decimals.
  - The reasoning string of a suggestion (generated text) is not part of
    the embedded Suggestion record; every other returned field is.
-/

namespace AIProd

/-- Task status enumeration from app/schemas/task.py (TODO, IN_PROGRESS,
COMPLETED, CANCELLED).  The similarity search filters on the completed
state (written `TaskStatus.DONE` throughout the services; the enum member
actually defined is `COMPLETED`). -/
inductive TaskStatus where
  | todo
  | in_progress
  | completed
  | cancelled
deriving DecidableEq, Repr

/-- Eisenhower quadrants, the four strings produced by `_get_quadrant`. -/
inductive Quadrant where
  | DO_FIRST
  | SCHEDULE
  | DELEGATE
  | ELIMINATE
deriving DecidableEq, Repr

/-- Python exceptions that the similarity primitive can surface.
`valueError` is the numpy ValueError raised by `np.dot` on misaligned
1-D shapes.  `dimensionMismatchError` is modelled from the spec: the spec
mandates a dedicated `DimensionMismatchError` class, but no such class is
defined anywhere in the source. -/
inductive PyError where
  | valueError (msg : String)
  | dimensionMismatchError
deriving DecidableEq, Repr

/-- Task record, the subset of columns of app/models/task.py read by the
suggestion engine.  `embedding` is the persisted 384-float vector
(nullable), timestamps are integer seconds. -/
structure Task where
  id : Nat
  user_id : Nat
  title : String := ""
  description : Option String := none
  is_urgent : Bool := false
  is_important : Bool := false
  status : TaskStatus := .todo
  due_date : Option Int := none
  completed_at : Option Int := none
  created_at : Int := 0
  embedding : Option (List ℚ) := none
deriving DecidableEq, Repr

/-- Python `(a - b).days` on datetimes: the whole-day count of the
timedelta, floor division (towards negative infinity) by 86400 seconds. -/
def timedeltaDays (a b : Int) : Int :=
  Int.fdiv (a - b) 86400

/-! ## Cosine similarity (embedding_service.compute_similarity) -/

/-- Dot product of two real vectors, `np.dot` on equal-length 1-D arrays
(zip semantics; numpy raises before ever reaching unequal lengths, see
`compute_similarity_checked`). -/
def dotR (a b : List ℝ) : ℝ :=
  (List.zipWith (fun x y => x * y) a b).sum

/-- Euclidean norm squared, `np.linalg.norm(v) ** 2`. -/
def normSq (v : List ℝ) : ℝ := dotR v v

/-- Elementwise division by the Euclidean norm,
`embedding / np.linalg.norm(embedding)`. -/
noncomputable def l2normalize (v : List ℝ) : List ℝ :=
  v.map (fun x => x / Real.sqrt (normSq v))

/-- EmbeddingService.compute_similarity: normalize both vectors to unit
length, then take the dot product. -/
noncomputable def compute_similarity (a b : List ℝ) : ℝ :=
  dotR (l2normalize a) (l2normalize b)

/-- EmbeddingService.compute_similarity including the numpy shape rule:
`np.dot` on two 1-D arrays of unequal length raises
`ValueError: shapes not aligned` instead of returning a number.  The
source performs no dimensionality check of its own. -/
noncomputable def compute_similarity_checked (a b : List ℝ) :
    Except PyError ℝ :=
  if a.length = b.length then .ok (compute_similarity a b)
  else .error (.valueError "shapes not aligned")

/-! ## Stable descending sort (Python list.sort(key=..., reverse=True)) -/

/-- Insert `x` into `l` in front of the first element whose key is not
larger, so that elements with equal keys keep their original relative
order (CPython sort is stable, also with `reverse=True`). -/
def insertDescBy {α K : Type} [LinearOrder K] (key : α → K) (x : α) :
    List α → List α
  | [] => [x]
  | y :: ys => if key y ≤ key x then x :: y :: ys else y :: insertDescBy key x ys

/-- Stable sort into descending key order. -/
def sortDescBy {α K : Type} [LinearOrder K] (key : α → K) :
    List α → List α
  | [] => []
  | x :: xs => insertDescBy key x (sortDescBy key xs)

/-! ## PrioritySuggestionService -/

/-- Filter of the candidate query in `_find_similar_tasks`: the task
belongs to the requesting user, is completed, has an embedding and has a
completion timestamp. -/
def eligibleHistorical (user_id : Nat) (t : Task) : Bool :=
  t.user_id == user_id && t.status == .completed &&
    t.embedding.isSome && t.completed_at.isSome

/-- The candidate query of `_find_similar_tasks`: completed tasks of the
user with embeddings, ordered by `completed_at` descending, limited to
the 100 most recent. -/
def candidateWindow (store : List Task) (user_id : Nat) : List Task :=
  (sortDescBy (fun t => t.completed_at.getD 0)
    (store.filter (eligibleHistorical user_id))).take 100

/-- PrioritySuggestionService._find_similar_tasks: score every candidate
with the similarity function, stable-sort descending by similarity, keep
the top k.  `sim` is the injected EmbeddingService similarity.  No
minimum-similarity threshold exists in this function. -/
def find_similar_tasks {K : Type} [LinearOrderedField K]
    (sim : List ℚ → List ℚ → K) (queryEmbedding : List ℚ)
    (user_id : Nat) (top_k : Nat) (store : List Task) :
    List (Task × K) :=
  let tasks := candidateWindow store user_id
  let similarities := tasks.map (fun t => (t, sim queryEmbedding (t.embedding.getD [])))
  (sortDescBy (fun p => p.2) similarities).take top_k

/-- Score table of `_calculate_urgency_score` as a function of the
whole-day distance to the due date. -/
def urgencyOfDays {K : Type} [LinearOrderedField K] (days : Int) : K :=
  if days < 0 then 1
  else if days ≤ 1 then 1
  else if days ≤ 3 then 8/10
  else if days ≤ 7 then 6/10
  else if days ≤ 14 then 4/10
  else if days ≤ 30 then 2/10
  else 1/10

/-- PrioritySuggestionService._calculate_urgency_score. -/
def calculate_urgency_score {K : Type} [LinearOrderedField K]
    (now : Int) (t : Task) : K :=
  match t.due_date with
  | none => 1/10
  | some due => urgencyOfDays (timedeltaDays due now)

/-- PrioritySuggestionService._calculate_importance_score: average of
the is_important flags of the similar tasks, weighted by similarity;
neutral 1/2 on an empty list or a zero total weight. -/
def calculate_importance_score {K : Type} [LinearOrderedField K]
    (similar : List (Task × K)) : K :=
  if similar.isEmpty then 1/2
  else
    let total_weight := (similar.map (fun p => p.2)).sum
    let weighted_sum :=
      (similar.map (fun p => (if p.1.is_important then (1 : K) else 0) * p.2)).sum
    if total_weight = 0 then 1/2 else weighted_sum / total_weight

/-- Importance formula as the spec words it (Modelled from the spec:
`importance_score = Σ(similarity_i × important_i) / Σ(similarity_i)`),
for comparison with the source function. -/
def spec_importance_formula {K : Type} [LinearOrderedField K]
    (similar : List (Task × K)) : K :=
  (similar.map (fun p => p.2 * (if p.1.is_important then (1 : K) else 0))).sum /
    (similar.map (fun p => p.2)).sum

/-- PrioritySuggestionService._calculate_confidence.  The urgency and
importance arguments are accepted and ignored, as in the source. -/
def calculate_confidence {K : Type} [LinearOrderedField K] (now : Int)
    (similar : List (Task × K)) (urgency importance : K) : K :=
  match similar with
  | [] => 3/10
  | first :: _ =>
    let n : K := (similar.length : K)
    let avg_similarity := (similar.map (fun p => p.2)).sum / n
    let important_ratio :=
      ((similar.filter (fun p => p.1.is_important)).length : K) / n
    let consistency := |important_ratio - 1/2| * 2
    let count_factor := min (n / 5) 1
    let recency_factor : K :=
      match first.1.completed_at with
      | some c =>
        let days_since := timedeltaDays now c
        if days_since ≤ 30 then 1
        else if days_since ≤ 90 then 7/10
        else 1/2
      | none => 1/2
    min (avg_similarity * (4/10) + consistency * (3/10) +
      count_factor * (2/10) + recency_factor * (1/10)) (95/100)

/-- PrioritySuggestionService._get_quadrant. -/
def get_quadrant (is_urgent is_important : Bool) : Quadrant :=
  if is_urgent && is_important then .DO_FIRST
  else if !is_urgent && is_important then .SCHEDULE
  else if is_urgent && !is_important then .DELEGATE
  else .ELIMINATE

/-- Round half to even to an integer (CPython round()). -/
def roundHalfEven {K : Type} [LinearOrderedField K] [FloorRing K]
    (x : K) : ℤ :=
  if x - ⌊x⌋ < 1/2 then ⌊x⌋
  else if 1/2 < x - ⌊x⌋ then ⌊x⌋ + 1
  else if Even ⌊x⌋ then ⌊x⌋ else ⌊x⌋ + 1

/-- Python `round(x, 2)`. -/
def round2 {K : Type} [LinearOrderedField K] [FloorRing K] (x : K) : K :=
  ((roundHalfEven (x * 100) : ℤ) : K) / 100

/-- The Suggestion Result assembled by suggest_priority (reasoning text
omitted; it is generated deterministically from the same data). -/
structure Suggestion (K : Type) where
  task_id : Nat
  suggested_urgent : Bool
  suggested_important : Bool
  suggested_quadrant : Quadrant
  urgency_score : K
  importance_score : K
  confidence : K
  similar_tasks : List (Task × K)
deriving DecidableEq

/-- PrioritySuggestionService._fallback_suggestion: deadline-only mode
used when no similar completed tasks exist. -/
def fallback_suggestion {K : Type} [LinearOrderedField K] [FloorRing K]
    (now : Int) (t : Task) : Suggestion K :=
  let urgency_score : K := calculate_urgency_score now t
  let su := decide (urgency_score > 1/2)
  { task_id := t.id
    suggested_urgent := su
    suggested_important := false
    suggested_quadrant := if su then .DELEGATE else .ELIMINATE
    urgency_score := round2 urgency_score
    importance_score := 1/2
    confidence := 3/10
    similar_tasks := [] }

/-- PrioritySuggestionService.suggest_priority: fetch the task scoped to
the user, require an embedding, search similar completed tasks, fall
back when none are found, otherwise score and assemble.  `none` models
the ValueError paths (task missing or embedding missing). -/
def suggest_priority {K : Type} [LinearOrderedField K] [FloorRing K]
    (sim : List ℚ → List ℚ → K) (now : Int) (store : List Task)
    (task_id user_id : Nat) (top_k : Nat) : Option (Suggestion K) :=
  match store.find? (fun t => t.id == task_id && t.user_id == user_id) with
  | none => none
  | some t =>
    match t.embedding with
    | none => none
    | some emb =>
      let similar := find_similar_tasks sim emb user_id top_k store
      if similar.isEmpty then some (fallback_suggestion now t)
      else
        let urgency_score : K := calculate_urgency_score now t
        let importance_score := calculate_importance_score similar
        let su := decide (urgency_score > 1/2)
        let si := decide (importance_score > 1/2)
        let confidence := calculate_confidence now similar urgency_score importance_score
        some { task_id := task_id
               suggested_urgent := su
               suggested_important := si
               suggested_quadrant := get_quadrant su si
               urgency_score := round2 urgency_score
               importance_score := round2 importance_score
               confidence := round2 confidence
               similar_tasks := similar.take 3 }

/-! ## Bulk embedding backfill (ai_priority.generate_embeddings) -/

/-- Selection of generate_embeddings: all of the user's tasks when
force_regenerate, otherwise only those without an embedding.  The store
access is the `get_all_by_user` call (Modelled from the spec: the Task
Store collaborator returns the owner's tasks; TaskRepository defines no
method of this name). -/
def select_for_backfill (store : List Task) (user_id : Nat)
    (force : Bool) : List Task :=
  let mine := store.filter (fun t => t.user_id == user_id)
  if force then mine else mine.filter (fun t => t.embedding.isNone)

/-- The background pass _generate_embeddings_background over the queued
ids: each stored task that was selected and still belongs to the user
receives a fresh embedding; everything else is untouched.  Returns the
new store and the number of embedding writes. -/
def run_backfill (gen : Task → List ℚ) (store : List Task)
    (user_id : Nat) (force : Bool) : List Task × Nat :=
  let ids := (select_for_backfill store user_id force).map (fun t => t.id)
  let touched := fun t : Task => ids.contains t.id && t.user_id == user_id
  (store.map (fun t => if touched t then { t with embedding := some (gen t) } else t),
   (store.filter touched).length)

/-! ## Concrete instances used by witnesses and counterexamples -/

/-- Dot product over ℚ, a concrete similarity function for evaluation
(exactly the cosine of already-normalized rational vectors). -/
def simDot (a b : List ℚ) : ℚ :=
  (List.zipWith (fun x y => x * y) a b).sum

/-- Completed, embedded task of user 1 orthogonal to the probe query. -/
def tOrtho : Task :=
  { id := 7, user_id := 1, status := .completed,
    completed_at := some 1000, embedding := some [0, 1] }

/-- Query task of user 1, not yet completed, with an embedding. -/
def tQuery : Task :=
  { id := 10, user_id := 1, status := .todo, embedding := some [1, 0] }

/-- Completed, embedded task of a different user (user 2). -/
def tOther : Task :=
  { id := 9, user_id := 2, status := .completed,
    completed_at := some 3000, embedding := some [1, 0] }

/-- Store holding another user's task next to user 1's tasks. -/
def storeA : List Task := [tOther, tQuery, tOrtho]

/-- Store agreeing with storeA on user 1's tasks, with user 2 absent. -/
def storeB : List Task := [tQuery, tOrtho]

/-- Task due in exactly 8 days when now = 0. -/
def tDue8 : Task := { id := 11, user_id := 1, due_date := some 691200 }

/-- Task due in exactly 0 days when now = 0. -/
def tDue0 : Task := { id := 12, user_id := 1, due_date := some 0 }

/-- Important completed task used with a zero similarity weight. -/
def tImp : Task :=
  { id := 30, user_id := 1, is_important := true, status := .completed,
    completed_at := some 100, embedding := some [0, 1] }

/-- Candidate list with one entry of similarity 0. -/
def simsZeroWeight : List (Task × ℚ) := [(tImp, 0)]

/-- Historical task B of the end-to-end spec scenario (important). -/
def tB : Task :=
  { id := 31, user_id := 1, is_important := true, status := .completed,
    completed_at := some 100, embedding := some [1, 0] }

/-- Historical task C of the end-to-end spec scenario (important). -/
def tC : Task :=
  { id := 32, user_id := 1, is_important := true, status := .completed,
    completed_at := some 200, embedding := some [1, 0] }

/-- Historical task D of the end-to-end spec scenario (not important). -/
def tD : Task :=
  { id := 33, user_id := 1, is_important := false, status := .completed,
    completed_at := some 300, embedding := some [0, 1] }

/-- The spec scenario candidate set: similarities 0.9, 0.8, 0.3. -/
def scenarioSims : List (Task × ℚ) := [(tB, 9/10), (tC, 8/10), (tD, 3/10)]

/-- Task of user 3 with an embedding, a due date tomorrow and no
eligible history in its store. -/
def tW1 : Task :=
  { id := 20, user_id := 3, status := .todo,
    due_date := some 86400, embedding := some [1, 0] }

/-- Store for tW1 with no completed tasks. -/
def storeW1 : List Task := [tW1]

/-- Task of user 4 with an embedding, no due date, no history. -/
def tW2 : Task :=
  { id := 21, user_id := 4, status := .todo, embedding := some [1, 0] }

/-- Store for tW2 with no completed tasks. -/
def storeW2 : List Task := [tW2]

/-- Overdue task of user 6 with an embedding and no history. -/
def tW3 : Task :=
  { id := 22, user_id := 6, status := .todo,
    due_date := some (-86400), embedding := some [1, 0] }

/-- Store for tW3 with no completed tasks. -/
def storeW3 : List Task := [tW3]

/-- Fully embedded tasks of user 5. -/
def tEmb1 : Task := { id := 40, user_id := 5, embedding := some [1, 0] }

/-- Second fully embedded task of user 5. -/
def tEmb2 : Task :=
  { id := 41, user_id := 5, status := .completed,
    completed_at := some 50, embedding := some [0, 1] }

/-- Store in which every task of user 5 already has an embedding. -/
def storeFull : List Task := [tEmb1, tEmb2]

/-! ## Helper lemmas -/

theorem mem_insertDescBy {α K : Type} [LinearOrder K] (key : α → K)
    (x a : α) (l : List α) :
    a ∈ insertDescBy key x l ↔ a = x ∨ a ∈ l := by
  induction l with
  | nil => simp [insertDescBy]
  | cons y ys ih =>
    simp only [insertDescBy]
    split
    · simp [List.mem_cons]
    · simp only [List.mem_cons, ih]
      tauto

theorem mem_sortDescBy {α K : Type} [LinearOrder K] (key : α → K)
    (a : α) (l : List α) : a ∈ sortDescBy key l ↔ a ∈ l := by
  induction l with
  | nil => simp [sortDescBy]
  | cons x xs ih => simp [sortDescBy, mem_insertDescBy, ih]

theorem filter_congr_of_imp {α : Type} {p q : α → Bool}
    (h : ∀ a, p a = true → q a = true) (l : List α) :
    l.filter p = (l.filter q).filter p := by
  induction l with
  | nil => rfl
  | cons a l ih =>
    cases hp : p a with
    | true =>
      have hq := h a hp
      simp [List.filter_cons, hp, hq, ih]
    | false =>
      cases hq : q a with
      | true => simp [List.filter_cons, hp, hq, ih]
      | false => simp [List.filter_cons, hp, hq, ih]

theorem find?_congr_of_imp {α : Type} {p q : α → Bool}
    (h : ∀ a, p a = true → q a = true) (l : List α) :
    l.find? p = (l.filter q).find? p := by
  induction l with
  | nil => rfl
  | cons a l ih =>
    cases hp : p a with
    | true =>
      have hq := h a hp
      simp [List.find?_cons, List.filter_cons, hp, hq]
    | false =>
      cases hq : q a with
      | true => simp [List.find?_cons, List.filter_cons, hp, hq, ih]
      | false => simp [List.find?_cons, List.filter_cons, hp, hq, ih]

theorem eligible_imp_user (user_id : Nat) (t : Task)
    (h : eligibleHistorical user_id t = true) :
    (t.user_id == user_id) = true := by
  simp only [eligibleHistorical, Bool.and_eq_true] at h
  exact h.1.1.1

theorem eligible_decode {user_id : Nat} {t : Task}
    (h : eligibleHistorical user_id t = true) :
    t.user_id = user_id ∧ t.status = .completed ∧
      t.embedding.isSome = true ∧ t.completed_at.isSome = true := by
  simp only [eligibleHistorical, Bool.and_eq_true, beq_iff_eq] at h
  exact ⟨h.1.1.1, h.1.1.2, h.1.2, h.2⟩

theorem mem_find_similar_eligible {K : Type} [LinearOrderedField K]
    {sim : List ℚ → List ℚ → K} {q : List ℚ} {user_id top_k : Nat}
    {store : List Task} {p : Task × K}
    (hp : p ∈ find_similar_tasks sim q user_id top_k store) :
    eligibleHistorical user_id p.1 = true := by
  simp only [find_similar_tasks] at hp
  have h1 := List.take_subset _ _ hp
  rw [mem_sortDescBy] at h1
  obtain ⟨t, ht, hpt⟩ := List.mem_map.1 h1
  simp only [candidateWindow] at ht
  have h2 := List.take_subset _ _ ht
  rw [mem_sortDescBy] at h2
  have h3 := (List.mem_filter.1 h2).2
  rw [← hpt]
  exact h3

theorem filter_store_congr {user_id : Nat} {s1 s2 : List Task}
    (h : s1.filter (fun t => t.user_id == user_id) =
      s2.filter (fun t => t.user_id == user_id)) :
    s1.filter (eligibleHistorical user_id) =
      s2.filter (eligibleHistorical user_id) := by
  rw [filter_congr_of_imp (eligible_imp_user user_id) s1,
    filter_congr_of_imp (eligible_imp_user user_id) s2, h]

theorem find_similar_store_congr {K : Type} [LinearOrderedField K]
    (sim : List ℚ → List ℚ → K) (user_id top_k : Nat) {s1 s2 : List Task}
    (h : s1.filter (fun t => t.user_id == user_id) =
      s2.filter (fun t => t.user_id == user_id)) (q : List ℚ) :
    find_similar_tasks sim q user_id top_k s1 =
      find_similar_tasks sim q user_id top_k s2 := by
  simp only [find_similar_tasks, candidateWindow, filter_store_congr h]

theorem find_task_store_congr {task_id user_id : Nat} {s1 s2 : List Task}
    (h : s1.filter (fun t => t.user_id == user_id) =
      s2.filter (fun t => t.user_id == user_id)) :
    s1.find? (fun t => t.id == task_id && t.user_id == user_id) =
      s2.find? (fun t => t.id == task_id && t.user_id == user_id) := by
  have himp : ∀ t : Task,
      (t.id == task_id && t.user_id == user_id) = true →
        (t.user_id == user_id) = true := by
    intro t ht
    simp only [Bool.and_eq_true] at ht
    exact ht.2
  rw [find?_congr_of_imp himp s1, find?_congr_of_imp himp s2, h]

theorem suggest_store_congr {K : Type} [LinearOrderedField K] [FloorRing K]
    (sim : List ℚ → List ℚ → K) (now : Int) {s1 s2 : List Task}
    (task_id user_id top_k : Nat)
    (h : s1.filter (fun t => t.user_id == user_id) =
      s2.filter (fun t => t.user_id == user_id)) :
    suggest_priority sim now s1 task_id user_id top_k =
      suggest_priority sim now s2 task_id user_id top_k := by
  unfold suggest_priority
  rw [find_task_store_congr h]
  cases hfind : s2.find? (fun t => t.id == task_id && t.user_id == user_id) with
  | none => rfl
  | some t =>
    dsimp only
    cases hemb : t.embedding with
    | none => rfl
    | some emb =>
      dsimp only
      rw [find_similar_store_congr sim user_id top_k h emb]

/-! ## Claim C1 -/

/-- Claim C1: every historical task that participates in similarity
search belongs to the requesting user and is completed, embedded and
completion-stamped; and tasks of other users never influence the result:
two stores agreeing on the requesting user's rows produce the same
search result and the same suggestion. -/
theorem C1_per_user_scoping {K : Type} [LinearOrderedField K] [FloorRing K]
    (sim : List ℚ → List ℚ → K) (now : Int) (q : List ℚ)
    (task_id user_id top_k : Nat) (s1 s2 : List Task) :
    (∀ p ∈ find_similar_tasks sim q user_id top_k s1,
      p.1.user_id = user_id ∧ p.1.status = .completed ∧
        p.1.embedding.isSome = true ∧ p.1.completed_at.isSome = true) ∧
    (s1.filter (fun t => t.user_id == user_id) =
        s2.filter (fun t => t.user_id == user_id) →
      find_similar_tasks sim q user_id top_k s1 =
          find_similar_tasks sim q user_id top_k s2 ∧
        suggest_priority sim now s1 task_id user_id top_k =
          suggest_priority sim now s2 task_id user_id top_k) := by
  constructor
  · intro p hp
    exact eligible_decode (mem_find_similar_eligible hp)
  · intro h
    exact ⟨find_similar_store_congr sim user_id top_k h q,
      suggest_store_congr sim now task_id user_id top_k h⟩

/-- Witness for C1: two concrete stores differing only in another
user's rows yield the same suggestion for user 1. -/
theorem C1_per_user_scoping_witness :
    (storeA.filter (fun t => t.user_id == 1) =
      storeB.filter (fun t => t.user_id == 1)) ∧
    suggest_priority simDot 0 storeA 10 1 5 =
      suggest_priority simDot 0 storeB 10 1 5 :=
  ⟨by decide,
    ((C1_per_user_scoping simDot 0 [1, 0] 10 1 5 storeA storeB).2
      (by decide)).2⟩

/-! ## Claim C2 -/

/-- Claim C2 (code bug evidence): the service-level similarity search
applies no minimum-similarity threshold.  Evaluated on a store whose
single eligible candidate is orthogonal to the query, the candidate is
returned with similarity 0, below the endpoint's default
min_similarity of 0.5 that the claim says is enforced. -/
theorem C2_no_threshold_applied :
    find_similar_tasks (K := ℚ) simDot [1, 0] 1 5 [tOrtho] = [(tOrtho, 0)] ∧
      (0 : ℚ) < 1/2 := by
  refine ⟨?_, by norm_num⟩
  norm_num [find_similar_tasks, candidateWindow, eligibleHistorical,
    sortDescBy, insertDescBy, simDot, tOrtho]

/-! ## Claim C3 -/

/-- Claim C3: the urgency score is a pure function of the day distance
to the due date and matches the bucket table exactly: at most 1 day
away (including overdue and exactly 0 days) scores 1.0, 2-3 days 0.8,
4-7 days 0.6, 8-14 days 0.4, 15-30 days 0.2, more than 30 days 0.1, and
a missing due date scores 0.1. -/
theorem C3_urgency_bucket_table {K : Type} [LinearOrderedField K]
    (now : Int) (t : Task) :
    (t.due_date = none → calculate_urgency_score (K := K) now t = 1/10) ∧
    (∀ d : Int, t.due_date = some d →
      (timedeltaDays d now ≤ 1 →
        calculate_urgency_score (K := K) now t = 1) ∧
      (2 ≤ timedeltaDays d now → timedeltaDays d now ≤ 3 →
        calculate_urgency_score (K := K) now t = 8/10) ∧
      (4 ≤ timedeltaDays d now → timedeltaDays d now ≤ 7 →
        calculate_urgency_score (K := K) now t = 6/10) ∧
      (8 ≤ timedeltaDays d now → timedeltaDays d now ≤ 14 →
        calculate_urgency_score (K := K) now t = 4/10) ∧
      (15 ≤ timedeltaDays d now → timedeltaDays d now ≤ 30 →
        calculate_urgency_score (K := K) now t = 2/10) ∧
      (30 < timedeltaDays d now →
        calculate_urgency_score (K := K) now t = 1/10)) := by
  constructor
  · intro h
    simp [calculate_urgency_score, h]
  · intro d hd
    simp only [calculate_urgency_score, hd]
    unfold urgencyOfDays
    refine ⟨?_, ?_, ?_, ?_, ?_, ?_⟩ <;> intros <;> split_ifs <;>
      first | rfl | omega

/-- Witness for C3: a task due in exactly 8 days scores 0.4 and a task
due in exactly 0 days scores 1.0. -/
theorem C3_urgency_bucket_table_witness :
    (tDue8.due_date = some 691200 ∧ (8 : Int) ≤ timedeltaDays 691200 0 ∧
      timedeltaDays 691200 0 ≤ 14 ∧
      calculate_urgency_score (K := ℚ) 0 tDue8 = 4/10) ∧
    (tDue0.due_date = some 0 ∧ timedeltaDays 0 0 ≤ 1 ∧
      calculate_urgency_score (K := ℚ) 0 tDue0 = 1) := by
  refine ⟨⟨rfl, by decide, by decide, ?_⟩, rfl, by decide, ?_⟩
  · exact (((C3_urgency_bucket_table 0 tDue8).2 691200 rfl).2.2.2.1)
      (by decide) (by decide)
  · exact ((C3_urgency_bucket_table 0 tDue0).2 0 rfl).1 (by decide)

/-! ## Claim C9 -/

/-- Claim C9: the urgency score always lies in the six-value set, the
score exceeds 1/2 exactly when a due date exists at most 7 whole days
away (overdue included), never for a task without a due date; and the
suggested_urgent flag of any returned suggestion is exactly the test
urgency score greater than 1/2 on the fetched task. -/
theorem C9_urgency_value_set {K : Type} [LinearOrderedField K]
    [FloorRing K] (sim : List ℚ → List ℚ → K) (now : Int)
    (store : List Task) (task_id user_id top_k : Nat) (t : Task) :
    (calculate_urgency_score (K := K) now t ∈
      ({1/10, 2/10, 4/10, 6/10, 8/10, 1} : Set K)) ∧
    (calculate_urgency_score (K := K) now t > 1/2 ↔
      ∃ d, t.due_date = some d ∧ timedeltaDays d now ≤ 7) ∧
    (t.due_date = none →
      ¬ calculate_urgency_score (K := K) now t > 1/2) ∧
    (∀ tq sug,
      store.find? (fun u => u.id == task_id && u.user_id == user_id) =
        some tq →
      suggest_priority sim now store task_id user_id top_k = some sug →
      sug.suggested_urgent =
        decide (calculate_urgency_score (K := K) now tq > 1/2)) := by
  refine ⟨?_, ?_, ?_, ?_⟩
  · cases hd : t.due_date with
    | none => simp [calculate_urgency_score, hd]
    | some d =>
      simp only [calculate_urgency_score, hd]
      unfold urgencyOfDays
      split_ifs <;> simp [Set.mem_insert_iff]
  · cases hd : t.due_date with
    | none =>
      simp only [calculate_urgency_score, hd]
      constructor
      · intro hgt
        exfalso
        have : ¬ ((1 : K)/10 > 1/2) := by norm_num
        exact this hgt
      · rintro ⟨d, hd2, -⟩
        exact Option.noConfusion hd2
    | some d =>
      simp only [calculate_urgency_score, hd, Option.some.injEq]
      unfold urgencyOfDays
      split_ifs with h1 h2 h3 h4 h5 h6
      · constructor
        · intro _; exact ⟨d, rfl, by omega⟩
        · intro _; norm_num
      · constructor
        · intro _; exact ⟨d, rfl, by omega⟩
        · intro _; norm_num
      · constructor
        · intro _; exact ⟨d, rfl, by omega⟩
        · intro _; norm_num
      · constructor
        · intro _; exact ⟨d, rfl, by omega⟩
        · intro _; norm_num
      · constructor
        · intro hgt
          exfalso
          have : ¬ ((4 : K)/10 > 1/2) := by norm_num
          exact this hgt
        · rintro ⟨e, he, hle⟩
          cases he
          omega
      · constructor
        · intro hgt
          exfalso
          have : ¬ ((2 : K)/10 > 1/2) := by norm_num
          exact this hgt
        · rintro ⟨e, he, hle⟩
          cases he
          omega
      · constructor
        · intro hgt
          exfalso
          have : ¬ ((1 : K)/10 > 1/2) := by norm_num
          exact this hgt
        · rintro ⟨e, he, hle⟩
          cases he
          omega
  · intro hnone hgt
    simp only [calculate_urgency_score, hnone] at hgt
    have : ¬ ((1 : K)/10 > 1/2) := by norm_num
    exact this hgt
  · intro tq sug hfind hsug
    unfold suggest_priority at hsug
    rw [hfind] at hsug
    dsimp only at hsug
    cases hemb : tq.embedding with
    | none =>
      rw [hemb] at hsug
      exact Option.noConfusion hsug
    | some emb =>
      rw [hemb] at hsug
      dsimp only at hsug
      split at hsug
      · cases hsug
        rfl
      · cases hsug
        rfl

/-- Witness for C9: a concrete store with no eligible history, where
the returned fallback suggestion carries the urgency flag computed from
the urgency score. -/
theorem C9_urgency_value_set_witness :
    storeW1.find? (fun u => u.id == 20 && u.user_id == 3) = some tW1 ∧
    suggest_priority simDot 0 storeW1 20 3 5 =
      some (fallback_suggestion 0 tW1) ∧
    (fallback_suggestion (K := ℚ) 0 tW1).suggested_urgent =
      decide (calculate_urgency_score (K := ℚ) 0 tW1 > 1/2) := by
  have hfind : storeW1.find? (fun u => u.id == 20 && u.user_id == 3) =
      some tW1 := by decide
  have hsug : suggest_priority simDot 0 storeW1 20 3 5 =
      some (fallback_suggestion 0 tW1) := by
    unfold suggest_priority
    rw [hfind]
    norm_num [find_similar_tasks, candidateWindow, eligibleHistorical,
      sortDescBy, insertDescBy, tW1]
  exact ⟨hfind, hsug,
    (C9_urgency_value_set simDot 0 storeW1 20 3 5 tW1).2.2.2 tW1
      (fallback_suggestion 0 tW1) hfind hsug⟩

/-! ## Claim C10 -/

/-- Claim C10: the fallback suggestion never marks a task important, its
quadrant is DELEGATE exactly when the urgency flag is set and ELIMINATE
otherwise (so never DO_FIRST or SCHEDULE); and whenever the similarity
search comes back empty, suggest_priority returns exactly this fallback
for the fetched task. -/
theorem C10_fallback_conservative {K : Type} [LinearOrderedField K]
    [FloorRing K] (sim : List ℚ → List ℚ → K) (now : Int)
    (store : List Task) (task_id user_id top_k : Nat) (t : Task) :
    (fallback_suggestion (K := K) now t).suggested_important = false ∧
    (fallback_suggestion (K := K) now t).suggested_quadrant =
      (if (fallback_suggestion (K := K) now t).suggested_urgent then
        Quadrant.DELEGATE else Quadrant.ELIMINATE) ∧
    ((fallback_suggestion (K := K) now t).suggested_quadrant =
        Quadrant.DELEGATE ∨
      (fallback_suggestion (K := K) now t).suggested_quadrant =
        Quadrant.ELIMINATE) ∧
    (∀ tq emb,
      store.find? (fun u => u.id == task_id && u.user_id == user_id) =
        some tq →
      tq.embedding = some emb →
      find_similar_tasks sim emb user_id top_k store = [] →
      suggest_priority sim now store task_id user_id top_k =
        some (fallback_suggestion now tq)) := by
  refine ⟨rfl, rfl, ?_, ?_⟩
  · by_cases hgt : (calculate_urgency_score (K := K) now t) > 1/2
    · left
      show (if decide ((calculate_urgency_score (K := K) now t) > 1/2) then
        Quadrant.DELEGATE else Quadrant.ELIMINATE) = Quadrant.DELEGATE
      exact if_pos (by simpa using hgt)
    · right
      show (if decide ((calculate_urgency_score (K := K) now t) > 1/2) then
        Quadrant.DELEGATE else Quadrant.ELIMINATE) = Quadrant.ELIMINATE
      exact if_neg (by simpa using hgt)
  · intro tq emb hfind hemb hempty
    unfold suggest_priority
    rw [hfind]
    dsimp only
    rw [hemb]
    dsimp only
    simp [hempty]

/-- Witness for C10: an overdue task with no history gets the fallback
suggestion, not important, quadrant DELEGATE. -/
theorem C10_fallback_conservative_witness :
    storeW3.find? (fun u => u.id == 22 && u.user_id == 6) = some tW3 ∧
    tW3.embedding = some [1, 0] ∧
    find_similar_tasks (K := ℚ) simDot [1, 0] 6 5 storeW3 = [] ∧
    suggest_priority simDot 0 storeW3 22 6 5 =
      some (fallback_suggestion 0 tW3) := by
  have hfind : storeW3.find? (fun u => u.id == 22 && u.user_id == 6) =
      some tW3 := by decide
  have hemb : tW3.embedding = some [1, 0] := rfl
  have hempty : find_similar_tasks (K := ℚ) simDot [1, 0] 6 5 storeW3 = [] := by
    norm_num [find_similar_tasks, candidateWindow, eligibleHistorical,
      sortDescBy, insertDescBy, tW3]
  exact ⟨hfind, hemb, hempty,
    (C10_fallback_conservative simDot 0 storeW3 22 6 5 tW3).2.2.2 tW3
      [1, 0] hfind hemb hempty⟩

/-! ## Rounding and confidence bounds -/

theorem roundHalfEven_le_ceil {K : Type} [LinearOrderedField K]
    [FloorRing K] (x : K) : roundHalfEven x ≤ ⌈x⌉ := by
  have hhalf : (0 : K) < 1/2 := by norm_num
  unfold roundHalfEven
  split_ifs with h1 h2 h3
  · exact Int.floor_le_ceil x
  · have hlt : (⌊x⌋ : K) < x := by linarith
    have := Int.lt_ceil.2 hlt
    omega
  · exact Int.floor_le_ceil x
  · have hge : 1/2 ≤ x - ⌊x⌋ := not_lt.mp h1
    have hlt : (⌊x⌋ : K) < x := by linarith
    have := Int.lt_ceil.2 hlt
    omega

theorem round2_le_of_le {K : Type} [LinearOrderedField K] [FloorRing K]
    {x : K} (h : x ≤ 95/100) : round2 x ≤ 95/100 := by
  have h1 : x * 100 ≤ ((95 : ℤ) : K) := by push_cast; nlinarith
  have h2 : (⌈x * 100⌉ : ℤ) ≤ 95 := Int.ceil_le.2 h1
  have h3 : roundHalfEven (x * 100) ≤ 95 :=
    le_trans (roundHalfEven_le_ceil _) h2
  have h4 : ((roundHalfEven (x * 100) : ℤ) : K) ≤ 95 := by
    exact_mod_cast h3
  unfold round2
  linarith

theorem calculate_confidence_le {K : Type} [LinearOrderedField K]
    (now : Int) (similar : List (Task × K)) (uScore iScore : K) :
    calculate_confidence now similar uScore iScore ≤ 95/100 := by
  cases similar with
  | nil =>
    show (3 : K)/10 ≤ 95/100
    norm_num
  | cons a l =>
    simp only [calculate_confidence]
    exact min_le_right _ _

/-! ## Claim C5 -/

/-- Claim C5: the confidence is always at most 0.95, it is exactly 0.3
on an empty candidate set, the fallback suggestion reports confidence
exactly 0.3 and importance exactly 0.5, and every suggestion returned by
suggest_priority carries a confidence of at most 0.95. -/
theorem C5_confidence_cap {K : Type} [LinearOrderedField K] [FloorRing K]
    (sim : List ℚ → List ℚ → K) (now : Int) (store : List Task)
    (task_id user_id top_k : Nat) (similar : List (Task × K))
    (uScore iScore : K) :
    calculate_confidence now similar uScore iScore ≤ 95/100 ∧
    (similar = [] →
      calculate_confidence now similar uScore iScore = 3/10) ∧
    (∀ t : Task,
      (fallback_suggestion (K := K) now t).confidence = 3/10 ∧
      (fallback_suggestion (K := K) now t).importance_score = 1/2) ∧
    (∀ sug,
      suggest_priority sim now store task_id user_id top_k = some sug →
      sug.confidence ≤ 95/100) := by
  refine ⟨calculate_confidence_le now similar uScore iScore, ?_, ?_, ?_⟩
  · rintro rfl
    rfl
  · intro t
    exact ⟨rfl, rfl⟩
  · intro sug hsug
    unfold suggest_priority at hsug
    cases hfind : store.find? (fun u => u.id == task_id && u.user_id == user_id) with
    | none =>
      rw [hfind] at hsug
      exact Option.noConfusion hsug
    | some t =>
      rw [hfind] at hsug
      dsimp only at hsug
      cases hemb : t.embedding with
      | none =>
        rw [hemb] at hsug
        exact Option.noConfusion hsug
      | some emb =>
        rw [hemb] at hsug
        dsimp only at hsug
        split at hsug
        · cases hsug
          show (3 : K)/10 ≤ 95/100
          norm_num
        · cases hsug
          exact round2_le_of_le (calculate_confidence_le _ _ _ _)

/-- Witness for C5: the empty candidate set gives confidence 0.3, and a
concrete historyless request returns the fallback with confidence at
most 0.95. -/
theorem C5_confidence_cap_witness :
    calculate_confidence (K := ℚ) 0 [] 0 0 = 3/10 ∧
    suggest_priority simDot 0 storeW2 21 4 5 =
      some (fallback_suggestion 0 tW2) ∧
    (fallback_suggestion (K := ℚ) 0 tW2).confidence ≤ 95/100 := by
  have hsug : suggest_priority simDot 0 storeW2 21 4 5 =
      some (fallback_suggestion 0 tW2) := by
    have hfind : storeW2.find? (fun u => u.id == 21 && u.user_id == 4) =
        some tW2 := by decide
    unfold suggest_priority
    rw [hfind]
    norm_num [find_similar_tasks, candidateWindow, eligibleHistorical,
      sortDescBy, insertDescBy, tW2]
  refine ⟨(C5_confidence_cap simDot 0 storeW2 21 4 5 [] 0 0).2.1 rfl,
    hsug, ?_⟩
  exact (C5_confidence_cap simDot 0 storeW2 21 4 5 [] 0 0).2.2.2
    (fallback_suggestion 0 tW2) hsug

/-! ## Claim C4 -/

/-- Claim C4 counterexample: a non-empty candidate set whose
similarities sum to zero.  The source returns the neutral 0.5, while
the claimed formula Σ(similarity × important) / Σ(similarity) is an
undefined 0/0 (a ZeroDivisionError in Python, the field convention 0
here), so the claimed equality fails on this non-empty input. -/
theorem C4_zero_weight_counterexample :
    simsZeroWeight ≠ [] ∧
    calculate_importance_score simsZeroWeight = 1/2 ∧
    spec_importance_formula simsZeroWeight = 0 ∧
    calculate_importance_score simsZeroWeight ≠
      spec_importance_formula simsZeroWeight := by
  have h1 : calculate_importance_score simsZeroWeight = 1/2 := by
    norm_num [calculate_importance_score, simsZeroWeight, tImp]
  have h2 : spec_importance_formula simsZeroWeight = 0 := by
    norm_num [spec_importance_formula, simsZeroWeight, tImp]
  refine ⟨by simp [simsZeroWeight], h1, h2, ?_⟩
  rw [h1, h2]
  norm_num

/-- Claim C4 (amended): whenever the similarities of the candidate set
sum to a nonzero value, the importance score equals the
similarity-weighted average Σ(similarity × important) / Σ(similarity);
when they sum to zero the source returns the neutral 0.5; and the
suggested_important flag of a non-fallback suggestion is exactly the
test importance score greater than 1/2. -/
theorem C4_importance_weighted_average {K : Type} [LinearOrderedField K]
    [FloorRing K] (sim : List ℚ → List ℚ → K) (now : Int)
    (store : List Task) (task_id user_id top_k : Nat)
    (similar : List (Task × K)) :
    ((similar.map (fun p => p.2)).sum ≠ 0 →
      calculate_importance_score similar = spec_importance_formula similar ∧
      (calculate_importance_score similar > 1/2 ↔
        spec_importance_formula similar > 1/2)) ∧
    ((similar.map (fun p => p.2)).sum = 0 →
      calculate_importance_score similar = 1/2) ∧
    (∀ tq emb sug,
      store.find? (fun u => u.id == task_id && u.user_id == user_id) =
        some tq →
      tq.embedding = some emb →
      suggest_priority sim now store task_id user_id top_k = some sug →
      find_similar_tasks sim emb user_id top_k store ≠ [] →
      sug.suggested_important =
        decide (calculate_importance_score
          (find_similar_tasks sim emb user_id top_k store) > 1/2)) := by
  have hmul : (fun p : Task × K =>
      (if p.1.is_important then (1 : K) else 0) * p.2) =
      (fun p : Task × K =>
        p.2 * (if p.1.is_important then (1 : K) else 0)) := by
    funext p
    ring
  refine ⟨?_, ?_, ?_⟩
  · intro h
    cases similar with
    | nil => simp at h
    | cons a l =>
      have heq : calculate_importance_score (a :: l) =
          spec_importance_formula (a :: l) := by
        simp only [calculate_importance_score, spec_importance_formula,
          List.isEmpty_cons, Bool.false_eq_true, if_false, hmul]
        rw [if_neg h]
      exact ⟨heq, by rw [heq]⟩
  · intro h
    cases similar with
    | nil => rfl
    | cons a l =>
      simp only [calculate_importance_score, List.isEmpty_cons,
        Bool.false_eq_true, if_false]
      rw [if_pos h]
  · intro tq emb sug hfind hemb hsug hne
    unfold suggest_priority at hsug
    rw [hfind] at hsug
    dsimp only at hsug
    rw [hemb] at hsug
    dsimp only at hsug
    split at hsug
    · rename_i hempty
      exact absurd (List.isEmpty_iff.mp hempty) hne
    · cases hsug
      rfl

/-- Witness for C4: the spec scenario with similarities 0.9, 0.8, 0.3
and importance flags true, true, false scores exactly 0.85, which is
greater than 0.5. -/
theorem C4_importance_weighted_average_witness :
    ((scenarioSims.map (fun p => p.2)).sum ≠ 0) ∧
    calculate_importance_score scenarioSims = 85/100 ∧
    ((85 : ℚ)/100 > 1/2) := by
  have hsum : ((scenarioSims.map (fun p => p.2)).sum ≠ (0 : ℚ)) := by
    norm_num [scenarioSims]
  have heq := ((C4_importance_weighted_average simDot 0 [] 0 0 0
    scenarioSims).1 hsum).1
  refine ⟨hsum, ?_, by norm_num⟩
  rw [heq]
  norm_num [spec_importance_formula, scenarioSims, tB, tC, tD]

/-! ## Claim C8 -/

/-- Claim C8: with force off, the backfill selects only tasks without
an embedding, so on a store where every task of the owner is already
embedded it selects nothing and writes nothing; and one backfill run
leaves every task of the owner embedded, making a second run a no-op. -/
theorem C8_backfill_idempotent (gen : Task → List ℚ)
    (store store2 : List Task) (user_id : Nat)
    (h : ∀ t ∈ store, t.user_id = user_id → t.embedding.isSome = true) :
    select_for_backfill store user_id false = [] ∧
    run_backfill gen store user_id false = (store, 0) ∧
    (∀ t ∈ (run_backfill gen store2 user_id false).1,
      t.user_id = user_id → t.embedding.isSome = true) := by
  have hsel : select_for_backfill store user_id false = [] := by
    unfold select_for_backfill
    simp only [Bool.false_eq_true, if_false]
    rw [List.filter_eq_nil_iff]
    intro t ht hnone
    have hmem := List.mem_filter.1 ht
    have hu : t.user_id = user_id := by simpa using hmem.2
    have hsome := h t hmem.1 hu
    rw [Option.isNone_iff_eq_none] at hnone
    rw [hnone] at hsome
    simp at hsome
  refine ⟨hsel, ?_, ?_⟩
  · unfold run_backfill
    rw [hsel]
    simp
  · intro t ht hu
    unfold run_backfill at ht
    dsimp only at ht
    rw [List.mem_map] at ht
    obtain ⟨t0, ht0, heq⟩ := ht
    by_cases hc : (((select_for_backfill store2 user_id false).map
        (fun t => t.id)).contains t0.id && (t0.user_id == user_id)) = true
    · rw [if_pos hc] at heq
      rw [← heq]
      rfl
    · rw [if_neg hc] at heq
      subst heq
      by_cases hsome : t0.embedding.isSome = true
      · exact hsome
      · exfalso
        apply hc
        have hn : t0.embedding.isNone = true := by
          cases he : t0.embedding with
          | none => rfl
          | some v =>
            rw [he] at hsome
            exact absurd rfl hsome
        have hmem : t0 ∈ select_for_backfill store2 user_id false := by
          unfold select_for_backfill
          simp only [Bool.false_eq_true, if_false]
          exact List.mem_filter.2
            ⟨List.mem_filter.2 ⟨ht0, by simpa using hu⟩, hn⟩
        have hid : t0.id ∈ (select_for_backfill store2 user_id false).map
            (fun t => t.id) := List.mem_map_of_mem _ hmem
        rw [Bool.and_eq_true]
        exact ⟨List.elem_iff.2 hid, by simpa using hu⟩

/-- Witness for C8: a store where both tasks of user 5 are embedded;
the second run selects nothing and performs zero writes. -/
theorem C8_backfill_idempotent_witness :
    (∀ t ∈ storeFull, t.user_id = 5 → t.embedding.isSome = true) ∧
    select_for_backfill storeFull 5 false = [] ∧
    run_backfill (fun _ => [1, 0]) storeFull 5 false = (storeFull, 0) :=
  ⟨by decide,
    (C8_backfill_idempotent (fun _ => [1, 0]) storeFull storeFull 5
      (by decide)).1,
    (C8_backfill_idempotent (fun _ => [1, 0]) storeFull storeFull 5
      (by decide)).2.1⟩

/-! ## Claim C6 -/

/-- Claim C6 counterexample: on mismatched 1-D shapes the similarity
computation surfaces the numpy ValueError; the source defines no
DimensionMismatchError anywhere, so the raised error is not that
class. -/
theorem C6_mismatch_counterexample :
    compute_similarity_checked [1, 2] [1] =
      .error (.valueError "shapes not aligned") ∧
    (Except.error (PyError.valueError "shapes not aligned") :
      Except PyError ℝ) ≠ .error .dimensionMismatchError := by
  refine ⟨rfl, ?_⟩
  simp

/-- Claim C6 (amended): a dimension mismatch never yields a numeric
result and is never silently truncated or padded: the computation
raises the numpy ValueError (not the DimensionMismatchError class the
spec names, which the source never defines). -/
theorem C6_mismatch_never_numeric {a b : List ℝ}
    (h : a.length ≠ b.length) :
    compute_similarity_checked a b =
      .error (.valueError "shapes not aligned") ∧
    ∀ r : ℝ, compute_similarity_checked a b ≠ .ok r := by
  constructor
  · simp [compute_similarity_checked, h]
  · intro r hk
    simp [compute_similarity_checked, h] at hk

/-- Witness for C6: a 3-dimensional query against a 1-dimensional
stored vector errors out. -/
theorem C6_mismatch_never_numeric_witness :
    (([1, 2, 3] : List ℝ).length ≠ ([1] : List ℝ).length) ∧
    compute_similarity_checked [1, 2, 3] [1] =
      .error (.valueError "shapes not aligned") := by
  refine ⟨by decide, (C6_mismatch_never_numeric (by decide)).1⟩

/-! ## Dot product facts for Claim C7 -/

theorem dotR_nil_right (a : List ℝ) : dotR a [] = 0 := by
  cases a <;> rfl

theorem dotR_cons (x y : ℝ) (xs ys : List ℝ) :
    dotR (x :: xs) (y :: ys) = x * y + dotR xs ys := by
  simp [dotR]

theorem dotR_comm (a b : List ℝ) : dotR a b = dotR b a := by
  induction a generalizing b with
  | nil => cases b <;> rfl
  | cons x xs ih =>
    cases b with
    | nil => rfl
    | cons y ys => rw [dotR_cons, dotR_cons, mul_comm, ih]

theorem dotR_self_nonneg (v : List ℝ) : 0 ≤ dotR v v := by
  induction v with
  | nil => simp [dotR]
  | cons x xs ih =>
    rw [dotR_cons]
    nlinarith [mul_self_nonneg x]

theorem cs_step (x y d A B : ℝ) (h : d^2 ≤ A * B) (ha : 0 ≤ A)
    (hb : 0 ≤ B) : (x*y + d)^2 ≤ (x*x + A) * (y*y + B) := by
  by_cases hB : B = 0
  · subst hB
    have hd : d = 0 := by nlinarith [sq_nonneg d]
    subst hd
    nlinarith [mul_nonneg ha (mul_self_nonneg y)]
  · have hBpos : 0 < B := lt_of_le_of_ne hb (Ne.symm hB)
    have hABd : (0:ℝ) ≤ A * B - d^2 := by linarith
    have key : 0 ≤ B * (x^2*B + A*y^2 - 2*x*y*d) := by
      nlinarith [sq_nonneg (x*B - y*d), mul_nonneg (sq_nonneg y) hABd]
    have h2 : 0 ≤ x^2*B + A*y^2 - 2*x*y*d :=
      le_of_mul_le_mul_left (by simpa using key) hBpos
    nlinarith [h2, h]

theorem dotR_sq_le (a b : List ℝ) :
    dotR a b ^ 2 ≤ dotR a a * dotR b b := by
  induction a generalizing b with
  | nil => simp [dotR]
  | cons x xs ih =>
    cases b with
    | nil =>
      rw [dotR_nil_right, dotR_nil_right]
      simp
    | cons y ys =>
      rw [dotR_cons, dotR_cons, dotR_cons]
      exact cs_step x y (dotR xs ys) (dotR xs xs) (dotR ys ys) (ih ys)
        (dotR_self_nonneg xs) (dotR_self_nonneg ys)

theorem dotR_eq_zero_left {a : List ℝ} (ha : dotR a a = 0)
    (b : List ℝ) : dotR a b = 0 := by
  have h := dotR_sq_le a b
  rw [ha, zero_mul] at h
  have h0 := sq_nonneg (dotR a b)
  have : dotR a b ^ 2 = 0 := le_antisymm h h0
  exact pow_eq_zero_iff (two_ne_zero) |>.mp this

theorem dotR_map_div (a b : List ℝ) (s r : ℝ) :
    dotR (a.map (fun x => x / s)) (b.map (fun x => x / r)) =
      dotR a b * (s⁻¹ * r⁻¹) := by
  induction a generalizing b with
  | nil => simp [dotR]
  | cons x xs ih =>
    cases b with
    | nil => simp [dotR_nil_right]
    | cons y ys =>
      simp only [List.map_cons]
      rw [dotR_cons, dotR_cons, ih, div_eq_mul_inv, div_eq_mul_inv]
      ring

theorem compute_similarity_eq (a b : List ℝ) :
    compute_similarity a b =
      dotR a b * ((Real.sqrt (normSq a))⁻¹ * (Real.sqrt (normSq b))⁻¹) := by
  unfold compute_similarity l2normalize
  exact dotR_map_div a b _ _

/-! ## Claim C7 -/

/-- Claim C7: the cosine similarity is symmetric, always lies in
[-1, 1], and equals exactly 1 on any vector of nonzero norm against
itself. -/
theorem C7_cosine_properties (a b : List ℝ) (hab : a.length = b.length) :
    compute_similarity a b = compute_similarity b a ∧
    -1 ≤ compute_similarity a b ∧ compute_similarity a b ≤ 1 ∧
    (normSq a ≠ 0 → compute_similarity a a = 1) := by
  have hA : (0:ℝ) ≤ normSq a := dotR_self_nonneg a
  have hB : (0:ℝ) ≤ normSq b := dotR_self_nonneg b
  have hsymm : compute_similarity a b = compute_similarity b a := by
    rw [compute_similarity_eq, compute_similarity_eq, dotR_comm a b]
    ring
  have hbound : -1 ≤ compute_similarity a b ∧ compute_similarity a b ≤ 1 := by
    rw [compute_similarity_eq]
    by_cases hA0 : dotR a a = 0
    · rw [dotR_eq_zero_left hA0 b, zero_mul]
      norm_num
    · by_cases hB0 : dotR b b = 0
      · rw [dotR_comm a b, dotR_eq_zero_left hB0 a, zero_mul]
        norm_num
      · have hApos : (0:ℝ) < normSq a := lt_of_le_of_ne hA (Ne.symm hA0)
        have hBpos : (0:ℝ) < normSq b := lt_of_le_of_ne hB (Ne.symm hB0)
        have hsA : (0:ℝ) < Real.sqrt (normSq a) := Real.sqrt_pos.2 hApos
        have hsB : (0:ℝ) < Real.sqrt (normSq b) := Real.sqrt_pos.2 hBpos
        have hu : (0:ℝ) < Real.sqrt (normSq a) * Real.sqrt (normSq b) :=
          mul_pos hsA hsB
        have hsq : dotR a b ^ 2 ≤
            (Real.sqrt (normSq a) * Real.sqrt (normSq b))^2 := by
          rw [mul_pow, Real.sq_sqrt hA, Real.sq_sqrt hB]
          exact dotR_sq_le a b
        have habs : |dotR a b| ≤
            Real.sqrt (normSq a) * Real.sqrt (normSq b) := by
          rw [abs_le]
          constructor <;> nlinarith [hsq, hu]
        rw [← mul_inv, ← div_eq_mul_inv]
        constructor
        · rw [le_div_iff₀ hu]
          nlinarith [(abs_le.1 habs).1]
        · rw [div_le_one hu]
          exact (abs_le.1 habs).2
  have hself : normSq a ≠ 0 → compute_similarity a a = 1 := by
    intro h0
    rw [compute_similarity_eq, ← mul_inv, Real.mul_self_sqrt hA]
    exact mul_inv_cancel₀ h0
  exact ⟨hsymm, hbound.1, hbound.2, hself⟩

/-- Witness for C7: the vector (3, 4) has norm 5 and cosine similarity
exactly 1 with itself. -/
theorem C7_cosine_properties_witness :
    (([3, 4] : List ℝ).length = ([3, 4] : List ℝ).length) ∧
    normSq ([3, 4] : List ℝ) ≠ 0 ∧
    compute_similarity [3, 4] [3, 4] = 1 := by
  have hn : normSq ([3, 4] : List ℝ) = 25 := by
    norm_num [normSq, dotR]
  refine ⟨rfl, by rw [hn]; norm_num, ?_⟩
  exact (C7_cosine_properties [3, 4] [3, 4] rfl).2.2.2 (by rw [hn]; norm_num)
